import Mathlib

/-!
# Verification of the eval-harness scoring core

Shallow embedding of the scoring/regression core of the `eval-harness`
repository (`pkg/models/eval.py`, `pkg/scoring/engine.py`,
`pkg/regression/detector.py`) and proofs about it.

Modelling conventions:
* Python floats are modelled as exact rationals (`ℚ`); Python's `round`
  (round-half-to-even) is modelled exactly on rationals by `roundTo`.
* Episode records arrive as JSON-like dicts read with `.get(key, default)`;
  they are modelled as a structure of `Option`-valued fields covering the
  keys the core reads, with the `.get` defaults applied at each use site.
* Nondeterministic alert fields (`alert_id`, a random UUID; `created_at`,
  a wall-clock timestamp) and the human-readable `message` string are not
  modelled; all deterministic alert fields are.
* In-place mutation (`compute_weighted`, `check_batch`, `compute_summary`)
  is modelled by returning the updated value.
-/

namespace EvalHarness

/-- Round-half-to-even of a rational to an integer: the semantics of
Python's built-in `round` on an exact value. -/
def roundHalfEven (x : ℚ) : ℤ :=
  let f : ℤ := ⌊x⌋
  let r : ℚ := x - f
  if r < 1/2 then f
  else if r > 1/2 then f + 1
  else if f % 2 = 0 then f else f + 1

/-- Python's `round(x, n)` on an exact rational. -/
def roundTo (n : ℕ) (x : ℚ) : ℚ :=
  (roundHalfEven (x * 10 ^ n) : ℚ) / 10 ^ n

/-- One step of an episode record.  The scoring core reads only the
`step_type` key (`s.get("step_type")`); the other step keys are opaque. -/
structure Step where
  step_type : Option String
deriving DecidableEq, Repr

/-- An episode record as fetched from the episode store: a dict whose keys
the core reads with `.get`.  A missing key is `none`. -/
structure Episode where
  episode_id : Option String := none
  agent_id : Option String := none
  status : Option String := none
  steps : Option (List Step) := none
  total_cost_usd : Option ℚ := none
  total_duration_ms : Option ℚ := none
  tools_used : Option (List String) := none
deriving DecidableEq, Repr

/-- Python truthiness of the episode dict restricted to the modelled keys:
`{}` (no keys at all) is falsy, any dict with a key is truthy. -/
def Episode.isEmpty (e : Episode) : Bool :=
  e.episode_id.isNone && e.agent_id.isNone && e.status.isNone &&
  e.steps.isNone && e.total_cost_usd.isNone && e.total_duration_ms.isNone &&
  e.tools_used.isNone

/-- The episode dict with no keys at all (`{}`). -/
def Episode.empty : Episode := {}

/-- Enum `ScoreDimension` from `pkg/models/eval.py`. -/
inductive ScoreDimension where
  | correctness
  | cost_delta
  | latency_delta
  | tool_match
  | safety
deriving DecidableEq, Repr

/-- Enum `RegressionSeverity` from `pkg/models/eval.py`. -/
inductive RegressionSeverity where
  | info
  | warning
  | critical
deriving DecidableEq, Repr

/-- Enum `EvalStatus` from `pkg/models/eval.py`. -/
inductive EvalStatus where
  | pending
  | running
  | completed
  | failed
deriving DecidableEq, Repr

/-- Model `ScoreCard` from `pkg/models/eval.py` (the free-form `details` bag of
diagnostics is not read by any modelled operation and is omitted). -/
structure ScoreCard where
  episode_id : String
  agent_id : String
  baseline_episode_id : Option String := none
  correctness : ℚ := 0
  cost_delta : ℚ := 0
  latency_delta : ℚ := 0
  tool_match : ℚ := 0
  safety : ℚ := 1
  weighted_score : ℚ := 0
deriving DecidableEq, Repr

/-- Embedding of `getattr(card, dim, 0.0)` for a dimension name taken from the weight
map (the data model types weight-map keys as dimension names). -/
def ScoreCard.dimValue (c : ScoreCard) : ScoreDimension → ℚ
  | .correctness => c.correctness
  | .cost_delta => c.cost_delta
  | .latency_delta => c.latency_delta
  | .tool_match => c.tool_match
  | .safety => c.safety

/-- Test `dim in ("cost_delta", "latency_delta")`. -/
def ScoreDimension.isDelta : ScoreDimension → Bool
  | .cost_delta => true
  | .latency_delta => true
  | _ => false

/-- Method `ScoreCard.compute_weighted` from `pkg/models/eval.py`: fold over the
weight map, converting the two delta dimensions to a 0–1 goodness first;
the result is stored in `weighted_score` (mutation modelled by returning
the updated card). -/
def ScoreCard.compute_weighted (c : ScoreCard)
    (weights : List (ScoreDimension × ℚ)) : ScoreCard :=
  let total := weights.foldl (fun acc dw =>
    let value := c.dimValue dw.1
    let value := if dw.1.isDelta then max 0 (1 - |value| / 100) else value
    acc + value * dw.2) 0
  { c with weighted_score := roundTo 4 total }

/-- The default weight map of `EvalConfig` (insertion order preserved). -/
def defaultScoreWeights : List (ScoreDimension × ℚ) :=
  [(.correctness, 4/10), (.cost_delta, 2/10), (.latency_delta, 1/10),
   (.tool_match, 2/10), (.safety, 1/10)]

/-- Model `EvalConfig` from `pkg/models/eval.py`, restricted to the fields the
core reads (store URL, filters, `max_episodes` and `metadata` are opaque
to the core and omitted). -/
structure EvalConfig where
  name : String := "default"
  score_weights : List (ScoreDimension × ℚ) := defaultScoreWeights
  cost_threshold_pct : ℚ := 20
  latency_threshold_pct : ℚ := 30
deriving DecidableEq, Repr

/-- Model `RegressionAlert` from `pkg/models/eval.py`, deterministic fields only
(`alert_id` is a random UUID, `created_at` a wall-clock timestamp, and
`message` a formatted human-readable string; none is read by the core). -/
structure RegressionAlert where
  eval_run_id : String
  episode_id : String
  dimension : ScoreDimension
  severity : RegressionSeverity
  baseline_value : ℚ := 0
  current_value : ℚ := 0
  delta_pct : ℚ := 0
deriving DecidableEq, Repr

/-- Model `EvalResult` from `pkg/models/eval.py`. -/
structure EvalResult where
  episode_id : String
  agent_id : String
  status : EvalStatus := .pending
  score_card : Option ScoreCard := none
  alerts : List RegressionAlert := []
  error : Option String := none
  duration_ms : ℤ := 0
deriving DecidableEq, Repr

/-- Model `EvalRun` from `pkg/models/eval.py`, restricted to the fields
`compute_summary` touches plus identity/config/status (timestamps and the
metadata bag are omitted). -/
structure EvalRun where
  run_id : String := ""
  config : EvalConfig := {}
  status : EvalStatus := .pending
  results : List EvalResult := []
  alerts : List RegressionAlert := []
  total_episodes : ℕ := 0
  passed : ℕ := 0
  failed : ℕ := 0
  avg_weighted_score : ℚ := 0
deriving DecidableEq, Repr

/-- Accessor `r.score_card.weighted_score` for a result already filtered to have a
card (the `none` branch is unreachable there). -/
def EvalResult.cardWeighted (r : EvalResult) : ℚ :=
  match r.score_card with
  | some c => c.weighted_score
  | none => 0

/-- Method `EvalRun.compute_summary` from `pkg/models/eval.py`.  Note that
`avg_weighted_score` is only assigned inside `if completed:`; when no
result has a score card it keeps its previous value. -/
def EvalRun.compute_summary (run : EvalRun) : EvalRun :=
  let completed := run.results.filter (fun r => r.score_card.isSome)
  { run with
    total_episodes := run.results.length
    passed := (completed.filter (fun r => r.cardWeighted ≥ 7/10)).length
    failed := (completed.filter (fun r => r.cardWeighted < 7/10)).length
    avg_weighted_score :=
      if completed.isEmpty then run.avg_weighted_score
      else roundTo 4 ((completed.map EvalResult.cardWeighted).sum / completed.length)
    alerts := (run.results.map EvalResult.alerts).flatten }

/-! ## Scoring engine (`pkg/scoring/engine.py`) -/

/-- Method `ScoringEngine._score_correctness`. -/
def score_correctness (current baseline : Episode) : ℚ :=
  let current_status := current.status.getD ""
  let baseline_status := baseline.status.getD ""
  let score : ℚ :=
    if current_status = baseline_status then 1
    else if current_status = "success" then 8/10
    else 0
  let current_steps := (current.steps.getD []).length
  let baseline_steps := (baseline.steps.getD []).length
  let score :=
    if current_steps > 0 ∧ baseline_steps > 0 then
      score * (7/10) +
        ((min current_steps baseline_steps : ℚ) / (max current_steps baseline_steps : ℚ)) * (3/10)
    else score
  roundTo 4 score

/-- Method `ScoringEngine._score_cost_delta`. -/
def score_cost_delta (current baseline : Episode) : ℚ :=
  let current_cost := current.total_cost_usd.getD 0
  let baseline_cost := baseline.total_cost_usd.getD 0
  if baseline_cost = 0 then 0
  else roundTo 2 ((current_cost - baseline_cost) / baseline_cost * 100)

/-- Method `ScoringEngine._score_latency_delta`. -/
def score_latency_delta (current baseline : Episode) : ℚ :=
  let current_ms := current.total_duration_ms.getD 0
  let baseline_ms := baseline.total_duration_ms.getD 0
  if baseline_ms = 0 then 0
  else roundTo 2 ((current_ms - baseline_ms) / baseline_ms * 100)

/-- Method `ScoringEngine._score_tool_match`.  `len(set(a) & set(b))` and
`len(set(a) | set(b))` are the numbers of distinct names in the
intersection and union, computed here via `dedup`. -/
def score_tool_match (current baseline : Episode) : ℚ :=
  let current_tools := current.tools_used.getD []
  let baseline_tools := baseline.tools_used.getD []
  if baseline_tools.isEmpty && current_tools.isEmpty then 1
  else if baseline_tools.isEmpty || current_tools.isEmpty then 0
  else
    let overlap := (current_tools.dedup.filter (fun t => baseline_tools.contains t)).length
    let union := ((current_tools ++ baseline_tools).dedup).length
    let set_score : ℚ := if union > 0 then (overlap : ℚ) / (union : ℚ) else 1
    let min_len := min current_tools.length baseline_tools.length
    let order_matches := ((current_tools.zip baseline_tools).filter (fun p => p.1 = p.2)).length
    let order_score : ℚ := if min_len > 0 then (order_matches : ℚ) / (min_len : ℚ) else 0
    roundTo 4 (set_score * (6/10) + order_score * (4/10))

/-- Method `ScoringEngine._score_safety`. -/
def score_safety (episode : Episode) : ℚ :=
  let steps := episode.steps.getD []
  if steps.isEmpty then 1
  else
    let error_steps := steps.filter (fun s => s.step_type = some "error")
    let error_ratio : ℚ := (error_steps.length : ℚ) / (steps.length : ℚ)
    roundTo 4 (1 - error_ratio)

/-- Method `ScoringEngine.score`.  `compare = baseline or original` uses Python
truthiness (`None` and the empty dict are both falsy), as does the
conditional `compare.get("episode_id") if baseline else None`. -/
def ScoringEngine.score (config : EvalConfig) (original : Episode)
    (baseline : Option Episode) : ScoreCard :=
  let compare :=
    match baseline with
    | some b => if b.isEmpty then original else b
    | none => original
  let card : ScoreCard := {
    episode_id := original.episode_id.getD ""
    agent_id := original.agent_id.getD ""
    baseline_episode_id :=
      match baseline with
      | some b => if b.isEmpty then none else b.episode_id
      | none => none }
  let card := { card with
    correctness := score_correctness original compare
    cost_delta := score_cost_delta original compare
    latency_delta := score_latency_delta original compare
    tool_match := score_tool_match original compare
    safety := score_safety original }
  card.compute_weighted config.score_weights

/-! ## Regression detector (`pkg/regression/detector.py`) -/

/-- Method `RegressionDetector.check`: the seven rules, in source order, each
appending at most one alert. -/
def RegressionDetector.check (config : EvalConfig) (result : EvalResult) :
    List RegressionAlert :=
  match result.score_card with
  | none => []
  | some card =>
    let costAlert : RegressionAlert :=
      { eval_run_id := "", episode_id := card.episode_id,
        dimension := .cost_delta,
        severity := (if card.cost_delta > config.cost_threshold_pct * 2 then
          RegressionSeverity.critical else RegressionSeverity.warning),
        baseline_value := 0, current_value := card.cost_delta,
        delta_pct := card.cost_delta }
    let latencyAlert : RegressionAlert :=
      { eval_run_id := "", episode_id := card.episode_id,
        dimension := .latency_delta,
        severity := (if card.latency_delta > config.latency_threshold_pct * 2 then
          RegressionSeverity.critical else RegressionSeverity.warning),
        baseline_value := 0, current_value := card.latency_delta,
        delta_pct := card.latency_delta }
    let correctnessAlert : RegressionAlert :=
      { eval_run_id := "", episode_id := card.episode_id,
        dimension := .correctness, severity := .critical,
        current_value := card.correctness }
    let toolMatchAlert : RegressionAlert :=
      { eval_run_id := "", episode_id := card.episode_id,
        dimension := .tool_match, severity := .warning,
        current_value := card.tool_match }
    let safetyAlert : RegressionAlert :=
      { eval_run_id := "", episode_id := card.episode_id,
        dimension := .safety, severity := .critical,
        current_value := card.safety }
    let weightedAlert : RegressionAlert :=
      { eval_run_id := "", episode_id := card.episode_id,
        dimension := .correctness, severity := .critical,
        current_value := card.weighted_score }
    let alerts : List RegressionAlert := []
    let alerts :=
      if card.cost_delta > config.cost_threshold_pct then alerts ++ [costAlert]
      else alerts
    let alerts :=
      if card.latency_delta > config.latency_threshold_pct then alerts ++ [latencyAlert]
      else alerts
    let alerts :=
      if card.correctness < 1/2 then alerts ++ [correctnessAlert] else alerts
    let alerts :=
      if card.tool_match < 1/2 then alerts ++ [toolMatchAlert] else alerts
    let alerts :=
      if card.safety < 8/10 then alerts ++ [safetyAlert] else alerts
    let alerts :=
      if card.weighted_score < 1/2 then alerts ++ [weightedAlert] else alerts
    alerts

/-- Method `RegressionDetector.check_batch`: run `check` on each result in order,
stamp each alert's `eval_run_id` with the supplied run id, attach the
stamped list to its result (in-place mutation modelled by returning the
updated result list), and return the flattened alert list. -/
def RegressionDetector.check_batch (config : EvalConfig) (runId : String) :
    List EvalResult → List RegressionAlert × List EvalResult
  | [] => ([], [])
  | r :: rs =>
    let alerts := (RegressionDetector.check config r).map
      (fun a => { a with eval_run_id := runId })
    let rest := RegressionDetector.check_batch config runId rs
    (alerts ++ rest.1, { r with alerts := alerts } :: rest.2)

/-! ## Spec-side definitions

These definitions follow the wording of `spec.md` (not the source); they
exist to be compared against the source-derived definitions above. -/

/-- Spec wording of the correctness dimension (spec section 4.1): base
from the status comparison, blended with the step-count similarity when
both episodes have at least one step, rounded to 4 decimals. -/
def correctnessSpec (current baseline : Episode) : ℚ :=
  let base : ℚ :=
    if current.status.getD "" = baseline.status.getD "" then 1
    else if current.status.getD "" = "success" then 8/10
    else 0
  let nCur := (current.steps.getD []).length
  let nBase := (baseline.steps.getD []).length
  if nCur > 0 ∧ nBase > 0 then
    roundTo 4 (base * (7/10) + ((min nCur nBase : ℚ) / (max nCur nBase : ℚ)) * (3/10))
  else
    roundTo 4 base

/-- Spec wording of the cost-delta dimension (spec section 4.1):
percentage change rounded to 2 decimals, with exact 0.0 as the sentinel
for a zero baseline cost. -/
def costDeltaSpec (current baseline : Episode) : ℚ :=
  if baseline.total_cost_usd.getD 0 = 0 then 0
  else
    roundTo 2 ((current.total_cost_usd.getD 0 - baseline.total_cost_usd.getD 0)
      / baseline.total_cost_usd.getD 0 * 100)

/-- Spec wording of the latency-delta dimension: the identical formula
substituting `total_duration_ms` for `total_cost_usd`. -/
def latencyDeltaSpec (current baseline : Episode) : ℚ :=
  if baseline.total_duration_ms.getD 0 = 0 then 0
  else
    roundTo 2 ((current.total_duration_ms.getD 0 - baseline.total_duration_ms.getD 0)
      / baseline.total_duration_ms.getD 0 * 100)

/-- Jaccard overlap of the two tool-name sets (spec section 4.1), stated
with finite sets. -/
def jaccardSpec (a b : List String) : ℚ :=
  ((a.toFinset ∩ b.toFinset).card : ℚ) / ((a.toFinset ∪ b.toFinset).card : ℚ)

/-- Position-wise equality count over the first `min(len a, len b)`
positions (spec section 4.1). -/
def posEqSpec (a b : List String) : ℚ :=
  (((a.zip b).filter (fun p => p.1 = p.2)).length : ℚ) /
    ((min a.length b.length : ℕ) : ℚ)

/-- Spec wording of the tool-match dimension: 1.0 when both tool lists
are empty, 0.0 when exactly one is, otherwise the 60/40 blend of Jaccard
overlap and position-wise equality ratio, rounded to 4 decimals. -/
def toolMatchSpec (current baseline : Episode) : ℚ :=
  let ct := current.tools_used.getD []
  let bt := baseline.tools_used.getD []
  if ct = [] ∧ bt = [] then 1
  else if ct = [] ∨ bt = [] then 0
  else roundTo 4 (jaccardSpec ct bt * (6/10) + posEqSpec ct bt * (4/10))

/-- Spec wording of the per-dimension value entering the weighted sum:
delta dimensions are mapped to a 0-1 goodness, others are used as-is. -/
def dimGoodness (c : ScoreCard) (d : ScoreDimension) : ℚ :=
  if d.isDelta then max 0 (1 - |c.dimValue d| / 100) else c.dimValue d

/-- Spec wording of the weighted score: the sum over dimensions present
in the weight map of weight times (transformed) value, rounded to 4
decimals. -/
def weightedSpec (c : ScoreCard) (weights : List (ScoreDimension × ℚ)) : ℚ :=
  roundTo 4 ((weights.map (fun dw => dw.2 * dimGoodness c dw.1)).sum)

/-- Spec wording of detector rule 2 (cost regression). -/
def rule2cost (config : EvalConfig) (card : ScoreCard) : Option RegressionAlert :=
  if card.cost_delta > config.cost_threshold_pct then
    some
      { eval_run_id := "", episode_id := card.episode_id,
        dimension := .cost_delta,
        severity := (if card.cost_delta > config.cost_threshold_pct * 2 then
          RegressionSeverity.critical else RegressionSeverity.warning),
        baseline_value := 0, current_value := card.cost_delta,
        delta_pct := card.cost_delta }
  else none

/-- Spec wording of detector rule 3 (latency regression). -/
def rule3latency (config : EvalConfig) (card : ScoreCard) : Option RegressionAlert :=
  if card.latency_delta > config.latency_threshold_pct then
    some
      { eval_run_id := "", episode_id := card.episode_id,
        dimension := .latency_delta,
        severity := (if card.latency_delta > config.latency_threshold_pct * 2 then
          RegressionSeverity.critical else RegressionSeverity.warning),
        baseline_value := 0, current_value := card.latency_delta,
        delta_pct := card.latency_delta }
  else none

/-- Spec wording of detector rule 4 (correctness floor). -/
def rule4correctness (card : ScoreCard) : Option RegressionAlert :=
  if card.correctness < 1/2 then
    some
      { eval_run_id := "", episode_id := card.episode_id,
        dimension := .correctness, severity := .critical,
        current_value := card.correctness }
  else none

/-- Spec wording of detector rule 5 (tool-match floor). -/
def rule5toolMatch (card : ScoreCard) : Option RegressionAlert :=
  if card.tool_match < 1/2 then
    some
      { eval_run_id := "", episode_id := card.episode_id,
        dimension := .tool_match, severity := .warning,
        current_value := card.tool_match }
  else none

/-- Spec wording of detector rule 6 (safety floor). -/
def rule6safety (card : ScoreCard) : Option RegressionAlert :=
  if card.safety < 8/10 then
    some
      { eval_run_id := "", episode_id := card.episode_id,
        dimension := .safety, severity := .critical,
        current_value := card.safety }
  else none

/-- Spec wording of detector rule 7 (overall weighted-score floor,
tagged with the correctness dimension). -/
def rule7weighted (card : ScoreCard) : Option RegressionAlert :=
  if card.weighted_score < 1/2 then
    some
      { eval_run_id := "", episode_id := card.episode_id,
        dimension := .correctness, severity := .critical,
        current_value := card.weighted_score }
  else none

/-- Spec wording of the detector: no alerts without a score card,
otherwise the concatenation of the outcomes of rules 2-7 in rule order. -/
def checkSpec (config : EvalConfig) (result : EvalResult) : List RegressionAlert :=
  match result.score_card with
  | none => []
  | some card =>
    (rule2cost config card).toList ++ (rule3latency config card).toList ++
    (rule4correctness card).toList ++ (rule5toolMatch card).toList ++
    (rule6safety card).toList ++ (rule7weighted card).toList

/-- Spec wording of "result with a score card whose weighted_score is at
least 0.7" (spec section 4.3, passed counter). -/
def passesSpec (r : EvalResult) : Bool :=
  match r.score_card with
  | some c => decide (c.weighted_score ≥ 7/10)
  | none => false

/-- Spec wording of "result with a score card whose weighted_score is
below 0.7" (spec section 4.3, failed counter). -/
def failsSpec (r : EvalResult) : Bool :=
  match r.score_card with
  | some c => decide (c.weighted_score < 7/10)
  | none => false

/-- The weighted scores of the results that have a score card, in result
order (spec section 4.3). -/
def cardScores (results : List EvalResult) : List ℚ :=
  results.filterMap (fun r => r.score_card.map ScoreCard.weighted_score)

/-! ## Concrete records used in counterexamples and witnesses -/

/-- A fully populated episode record that lacks only the required
identifier field `episode_id`. -/
def epNoId : Episode :=
  { agent_id := some "test-agent", status := some "success",
    steps := some [⟨some "llm_call"⟩, ⟨some "tool_call"⟩],
    total_cost_usd := some (4/1000), total_duration_ms := some 600,
    tools_used := some ["calculator"] }

/-! ## Theorems -/

/-- C1 counterexample: on an episode record that lacks `episode_id`,
`ScoringEngine.score` does not signal a failure; it returns a well-defined
score card whose identifier has been silently defaulted to the empty
string, contradicting the claim. -/
theorem score_missing_id_silently_defaults :
    epNoId.episode_id = none ∧
    (ScoringEngine.score {} epNoId none).episode_id = "" :=
  ⟨rfl, rfl⟩

/-- C1 (amended): `ScoringEngine.score` never signals a failure on a
missing identifier: for every configuration, current episode and optional
baseline it returns a well-defined score card whose `episode_id` and
`agent_id` are the current episode's fields, each silently defaulted to
the empty string when absent. -/
theorem score_identifier_fields (config : EvalConfig) (original : Episode)
    (baseline : Option Episode) :
    (ScoringEngine.score config original baseline).episode_id =
      original.episode_id.getD "" ∧
    (ScoringEngine.score config original baseline).agent_id =
      original.agent_id.getD "" :=
  ⟨rfl, rfl⟩

/-- Folding addition over a list starting from an accumulator is the
accumulator plus the sum of the mapped list. -/
theorem foldl_add_map_sum {α : Type} (f : α → ℚ) (l : List α) (a : ℚ) :
    l.foldl (fun acc x => acc + f x) a = a + (l.map f).sum := by
  induction l generalizing a with
  | nil => simp
  | cons x xs ih => simp [ih, add_assoc]

/-- Appending a conditional singleton: the source's
`if cond: alerts.append(x)` pattern in terms of a conditional suffix. -/
theorem ite_append_singleton {α : Type} {c : Prop} [Decidable c]
    (l : List α) (x : α) :
    (if c then l ++ [x] else l) = l ++ (if c then [x] else []) := by
  split_ifs <;> simp

/-- C2: for every configuration and eval result, the detector returns
exactly the alerts prescribed by rules 1-7 of the spec, in rule order: no
alerts without a score card, then the cost, latency, correctness,
tool-match, safety and overall-weighted rules, with the severities and
dimension tags of the spec (rule 7 reusing the correctness tag). -/
theorem check_eq_rules (config : EvalConfig) (result : EvalResult) :
    RegressionDetector.check config result = checkSpec config result := by
  cases h : result.score_card with
  | none => simp [RegressionDetector.check, checkSpec, h]
  | some card =>
    simp only [RegressionDetector.check, checkSpec, h, rule2cost, rule3latency,
      rule4correctness, rule5toolMatch, rule6safety, rule7weighted,
      apply_ite Option.toList, Option.toList_some, Option.toList_none,
      ite_append_singleton]
    simp only [List.nil_append, List.append_assoc]

/-- C4: for every score card and weight map, `compute_weighted` sets
`weighted_score` to the 4-decimal rounding of the sum, over dimensions
present in the weight map, of weight times value, where the two delta
dimensions contribute `max(0, 1 - abs(delta)/100)` and the other three
contribute their raw value. -/
theorem compute_weighted_eq_spec (c : ScoreCard)
    (weights : List (ScoreDimension × ℚ)) :
    (c.compute_weighted weights).weighted_score = weightedSpec c weights := by
  simp only [ScoreCard.compute_weighted, weightedSpec]
  rw [foldl_add_map_sum
    (fun dw : ScoreDimension × ℚ =>
      (if dw.1.isDelta then max 0 (1 - |c.dimValue dw.1| / 100)
       else c.dimValue dw.1) * dw.2)]
  rw [zero_add]
  congr 1
  apply congrArg List.sum
  apply List.map_congr_left
  intro dw _
  simp only [dimGoodness]
  exact mul_comm _ _

/-- Counting the completed results that pass the 0.7 bar equals counting,
over all results, those with a card whose weighted score is at least 0.7. -/
theorem completed_filter_ge_eq_countP (l : List EvalResult) :
    ((l.filter (fun r => r.score_card.isSome)).filter
        (fun r => r.cardWeighted ≥ 7/10)).length = l.countP passesSpec := by
  rw [← List.countP_eq_length_filter, List.countP_filter]
  apply List.countP_congr
  intro r _
  cases h : r.score_card <;> simp [passesSpec, EvalResult.cardWeighted, h]

/-- Counting the completed results below the 0.7 bar equals counting,
over all results, those with a card whose weighted score is below 0.7. -/
theorem completed_filter_lt_eq_countP (l : List EvalResult) :
    ((l.filter (fun r => r.score_card.isSome)).filter
        (fun r => r.cardWeighted < 7/10)).length = l.countP failsSpec := by
  rw [← List.countP_eq_length_filter, List.countP_filter]
  apply List.countP_congr
  intro r _
  cases h : r.score_card <;> simp [failsSpec, EvalResult.cardWeighted, h]

/-- The weighted scores of the completed results are the card scores of
the whole result list, in order. -/
theorem completed_map_eq_cardScores (l : List EvalResult) :
    (l.filter (fun r => r.score_card.isSome)).map EvalResult.cardWeighted =
      cardScores l := by
  induction l with
  | nil => rfl
  | cons r rs ih =>
    cases h : r.score_card <;>
      simp [List.filter_cons, cardScores, List.filterMap_cons, h,
        EvalResult.cardWeighted, ih]

/-- C3 counterexample: `compute_summary` does not reset
`avg_weighted_score` when no result has a score card; on a run whose
field already holds 0.3 and whose result list is empty it keeps 0.3,
where the claim demands 0.0. -/
theorem compute_summary_keeps_stale_avg :
    (EvalRun.compute_summary
      { avg_weighted_score := 3/10 }).avg_weighted_score = 3/10 ∧
    (3/10 : ℚ) ≠ 0 :=
  ⟨rfl, by norm_num⟩

/-- C3 (amended): `compute_summary` recomputes `total_episodes`, the
`passed` and `failed` counters and the aggregated alert list from scratch
as the claim states, and sets `avg_weighted_score` to the rounded mean of
the weighted scores of the results that have a score card whenever at
least one result has one; when none has, `avg_weighted_score` is left
unchanged (0.0 only on a run whose field still holds its initial 0.0).
Repeated invocation yields the same summary. -/
theorem compute_summary_amended (run : EvalRun) :
    run.compute_summary.total_episodes = run.results.length ∧
    run.compute_summary.passed = run.results.countP passesSpec ∧
    run.compute_summary.failed = run.results.countP failsSpec ∧
    run.compute_summary.avg_weighted_score =
      (if cardScores run.results = [] then run.avg_weighted_score
       else roundTo 4 ((cardScores run.results).sum /
         ((cardScores run.results).length : ℚ))) ∧
    run.compute_summary.alerts = (run.results.map EvalResult.alerts).flatten ∧
    run.compute_summary.compute_summary = run.compute_summary := by
  refine ⟨rfl, completed_filter_ge_eq_countP run.results,
    completed_filter_lt_eq_countP run.results, ?_, rfl, ?_⟩
  · have hmap := completed_map_eq_cardScores run.results
    show (if (run.results.filter (fun r => r.score_card.isSome)).isEmpty then
        run.avg_weighted_score
      else roundTo 4
        (((run.results.filter (fun r => r.score_card.isSome)).map
            EvalResult.cardWeighted).sum /
          ((run.results.filter (fun r => r.score_card.isSome)).length : ℚ))) = _
    rw [hmap]
    have hlen : (run.results.filter (fun r => r.score_card.isSome)).length =
        (cardScores run.results).length := by
      rw [← hmap, List.length_map]
    rw [hlen]
    by_cases hc : cardScores run.results = []
    · have hempty : (run.results.filter (fun r => r.score_card.isSome)).isEmpty := by
        rw [List.isEmpty_iff, ← List.map_eq_nil_iff (f := EvalResult.cardWeighted), hmap]
        exact hc
      simp [hempty, hc]
    · have hempty : (run.results.filter (fun r => r.score_card.isSome)).isEmpty = false := by
        rw [Bool.eq_false_iff]
        intro hcontra
        apply hc
        rw [← hmap, List.isEmpty_iff.mp hcontra]
        rfl
      simp [hempty, hc]
  · simp only [EvalRun.compute_summary]
    split_ifs <;> rfl

/-- C6: for every current and baseline episode record, the correctness
score of the scoring engine equals the spec formula: round(base, 4) when
either episode has zero steps, and round(base*0.7 + similarity*0.3, 4)
when both have at least one step, with base = 1.0 on equal statuses, 0.8
when the current status is "success" and the baseline status differs,
and 0.0 otherwise. -/
theorem score_correctness_eq_spec (current baseline : Episode) :
    score_correctness current baseline = correctnessSpec current baseline := by
  simp only [score_correctness, correctnessSpec]
  split_ifs <;> rfl

/-- C7: for every current and baseline episode record, cost_delta equals
the spec formula ((current cost - baseline cost) / baseline cost) * 100
rounded to 2 decimals with exact 0.0 on a zero baseline cost, and
latency_delta is the identical formula on `total_duration_ms`. -/
theorem delta_dims_eq_spec (current baseline : Episode) :
    score_cost_delta current baseline = costDeltaSpec current baseline ∧
    score_latency_delta current baseline = latencyDeltaSpec current baseline :=
  ⟨rfl, rfl⟩

/-- Round-half-to-even sends a nonnegative rational to zero exactly when
it is at most one half. -/
theorem roundHalfEven_eq_zero_iff {y : ℚ} (hy : 0 ≤ y) :
    roundHalfEven y = 0 ↔ y ≤ 1/2 := by
  have hfl : (0:ℤ) ≤ ⌊y⌋ := Int.floor_nonneg.mpr hy
  have hflQ : (0:ℚ) ≤ (⌊y⌋:ℚ) := by exact_mod_cast hfl
  have hfr : y - (⌊y⌋:ℚ) < 1 := by
    have := Int.lt_floor_add_one y
    linarith
  simp only [roundHalfEven]
  split_ifs with h1 h2 h3
  · constructor
    · intro h0
      rw [h0] at h1
      push_cast at h1
      linarith
    · intro hy2
      exact Int.floor_eq_zero_iff.mpr ⟨hy, by linarith⟩
  · constructor
    · intro h0
      exfalso
      omega
    · intro hy2
      exfalso
      linarith
  · have hfrac : y - (⌊y⌋:ℚ) = 1/2 := le_antisymm (not_lt.mp h2) (not_lt.mp h1)
    constructor
    · intro h0
      rw [h0] at hfrac
      push_cast at hfrac
      linarith
    · intro hy2
      have : (⌊y⌋:ℚ) ≤ 0 := by linarith
      have h0 : ⌊y⌋ ≤ 0 := by exact_mod_cast this
      omega
  · have hfrac : y - (⌊y⌋:ℚ) = 1/2 := le_antisymm (not_lt.mp h2) (not_lt.mp h1)
    constructor
    · intro h0
      exfalso
      omega
    · intro hy2
      exfalso
      have h1' : 1 ≤ ⌊y⌋ := by omega
      have : (1:ℚ) ≤ (⌊y⌋:ℚ) := by exact_mod_cast h1'
      linarith

/-- Python's round to 4 decimals sends a nonnegative rational to zero
exactly when it is at most 1/20000. -/
theorem roundTo_four_eq_zero_iff {x : ℚ} (hx : 0 ≤ x) :
    roundTo 4 x = 0 ↔ x ≤ 1/20000 := by
  rw [roundTo, div_eq_zero_iff]
  have h4 : ((10:ℚ)^4) ≠ 0 := by norm_num
  rw [or_iff_left h4, Int.cast_eq_zero,
    roundHalfEven_eq_zero_iff (by positivity)]
  constructor <;> intro h <;> nlinarith

/-- An episode whose step list holds 19999 error steps followed by one
tool-call step: only a 1/20000 fraction of its steps is clean. -/
def epManyErrors : Episode :=
  { steps := some (List.replicate 19999 ⟨some "error"⟩ ++ [⟨some "tool_call"⟩]) }

/-- C5 counterexample: `epManyErrors` has a step that is not an error
step, yet its safety score is exactly 0.0 (1/20000 rounds to zero at 4
decimals), refuting the claimed "only if every step has kind error"
direction. -/
theorem safety_zero_without_all_error_steps :
    score_safety epManyErrors = 0 ∧
    ∃ s ∈ epManyErrors.steps.getD [], s.step_type ≠ some "error" := by
  constructor
  · have hunfold : score_safety epManyErrors =
        if (epManyErrors.steps.getD []).isEmpty then 1
        else roundTo 4 (1 -
          (((epManyErrors.steps.getD []).filter
              (fun s => s.step_type = some "error")).length : ℚ) /
            ((epManyErrors.steps.getD []).length : ℚ)) := rfl
    have hsteps : epManyErrors.steps.getD [] =
        List.replicate 19999 (⟨some "error"⟩ : Step) ++ [(⟨some "tool_call"⟩ : Step)] := rfl
    have hcount : ((List.replicate 19999 (⟨some "error"⟩ : Step) ++
        [(⟨some "tool_call"⟩ : Step)]).filter
          (fun s => s.step_type = some "error")).length = 19999 := by
      rw [List.filter_append, List.filter_replicate, if_pos (by decide),
        show List.filter (fun s => decide (s.step_type = some "error"))
          [(⟨some "tool_call"⟩ : Step)] = [] from by decide,
        List.append_nil, List.length_replicate]
    have hlen : (List.replicate 19999 (⟨some "error"⟩ : Step) ++
        [(⟨some "tool_call"⟩ : Step)]).length = 20000 := by
      rw [List.length_append, List.length_replicate, List.length_singleton]
    have hempty : (List.replicate 19999 (⟨some "error"⟩ : Step) ++
        [(⟨some "tool_call"⟩ : Step)]).isEmpty = false := by
      rw [Bool.eq_false_iff, Ne, List.isEmpty_iff, List.append_eq_nil]
      rintro ⟨-, h⟩
      exact List.cons_ne_nil _ _ h
    rw [hunfold, hsteps, hcount, hlen, hempty]
    norm_num [roundTo, roundHalfEven]
  · refine ⟨⟨some "tool_call"⟩, ?_, by simp⟩
    rw [show epManyErrors.steps.getD [] =
        List.replicate 19999 (⟨some "error"⟩ : Step) ++ [(⟨some "tool_call"⟩ : Step)] from rfl]
    exact List.mem_append_right _ (List.mem_singleton_self _)

/-- C5 (amended): safety is 0.0 iff the episode has at least one step and
the error-step fraction is at least 19999/20000 (equivalently, the clean
fraction rounds to zero at 4 decimals) — in particular whenever every
step has kind "error" — and safety is 1.0 whenever the episode has zero
steps or zero error steps. -/
theorem safety_zero_iff_amended (ep : Episode) :
    (score_safety ep = 0 ↔
      ep.steps.getD [] ≠ [] ∧
      19999 * (ep.steps.getD []).length ≤
        20000 * ((ep.steps.getD []).filter
          (fun s => s.step_type = some "error")).length) ∧
    (((ep.steps.getD []).filter (fun s => s.step_type = some "error")).length = 0 →
      score_safety ep = 1) := by
  have hunfold : score_safety ep =
      if (ep.steps.getD []).isEmpty then 1
      else roundTo 4 (1 -
        (((ep.steps.getD []).filter (fun s => s.step_type = some "error")).length : ℚ) /
          ((ep.steps.getD []).length : ℚ)) := rfl
  by_cases hnil : ep.steps.getD [] = []
  · constructor
    · rw [hunfold]
      simp [hnil]
    · intro _
      rw [hunfold]
      simp [hnil]
  · have hne : (ep.steps.getD []).isEmpty = false := by
      simpa [List.isEmpty_iff] using hnil
    have hn : 0 < (ep.steps.getD []).length := List.length_pos.mpr hnil
    have hnQ : (0:ℚ) < ((ep.steps.getD []).length : ℚ) := by exact_mod_cast hn
    have he : ((ep.steps.getD []).filter (fun s => s.step_type = some "error")).length ≤
        (ep.steps.getD []).length := List.length_filter_le _ _
    have heQ : (((ep.steps.getD []).filter (fun s => s.step_type = some "error")).length : ℚ) ≤
        ((ep.steps.getD []).length : ℚ) := by exact_mod_cast he
    constructor
    · rw [hunfold, hne]
      simp only [Bool.false_eq_true, if_false]
      have hx : (0:ℚ) ≤ 1 -
          (((ep.steps.getD []).filter (fun s => s.step_type = some "error")).length : ℚ) /
            ((ep.steps.getD []).length : ℚ) := by
        rw [sub_nonneg, div_le_one hnQ]
        exact heQ
      rw [roundTo_four_eq_zero_iff hx]
      simp only [hnil, ne_eq, not_false_iff, true_and]
      rw [← Nat.cast_le (α := ℚ)]
      push_cast
      rw [show (1:ℚ) -
          (((ep.steps.getD []).filter (fun s => s.step_type = some "error")).length : ℚ) /
            ((ep.steps.getD []).length : ℚ) =
          (((ep.steps.getD []).length : ℚ) -
            (((ep.steps.getD []).filter (fun s => s.step_type = some "error")).length : ℚ)) /
            ((ep.steps.getD []).length : ℚ) from by field_simp]
      rw [div_le_div_iff₀ hnQ (by norm_num : (0:ℚ) < 20000)]
      constructor <;> intro h <;> linarith
    · intro h0
      rw [hunfold, hne, h0]
      norm_num [roundTo, roundHalfEven]

/-- C5 witness: applying the amended safety characterization at concrete
episodes — a two-error-step episode scores 0.0, an episode with no error
steps scores 1.0. -/
theorem safety_zero_iff_amended_witness :
    score_safety { steps := some [⟨some "error"⟩, ⟨some "error"⟩] } = 0 ∧
    score_safety { steps := some [⟨some "llm_call"⟩] } = 1 :=
  ⟨(safety_zero_iff_amended _).1.mpr ⟨by decide, by decide⟩,
   (safety_zero_iff_amended _).2 (by decide)⟩

/-- Counting the distinct names of one list that occur in the other is
the cardinality of the intersection of the two name sets. -/
theorem dedup_filter_contains_length (a b : List String) :
    (a.dedup.filter (fun t => b.contains t)).length =
      (a.toFinset ∩ b.toFinset).card := by
  have hnd : (a.dedup.filter (fun t => b.contains t)).Nodup :=
    (a.nodup_dedup).filter _
  have h1 : (a.dedup.filter (fun t => b.contains t)).length
      = (a.dedup.filter (fun t => b.contains t)).toFinset.card := by
    rw [List.card_toFinset, hnd.dedup]
  have hdt : a.dedup.toFinset = a.toFinset := by
    ext x
    simp [List.mem_toFinset, List.mem_dedup]
  rw [h1, List.toFinset_filter, hdt]
  congr 1
  rw [← Finset.filter_mem_eq_inter]
  apply Finset.filter_congr
  intro x hx
  simp [List.mem_toFinset]

/-- The number of distinct names in the concatenation of two lists is the
cardinality of the union of the two name sets. -/
theorem dedup_append_length (a b : List String) :
    ((a ++ b).dedup).length = (a.toFinset ∪ b.toFinset).card := by
  rw [← List.card_toFinset, List.toFinset_append]

/-- The tool-match dimension of the engine agrees with the spec wording
on every pair of episodes. -/
theorem score_tool_match_eq_spec (current baseline : Episode) :
    score_tool_match current baseline = toolMatchSpec current baseline := by
  simp only [score_tool_match, toolMatchSpec]
  by_cases hc : current.tools_used.getD [] = [] <;>
    by_cases hb : baseline.tools_used.getD [] = []
  · simp [hc, hb]
  · simp [hc, hb]
  · simp [hc, hb]
  · have hu : 0 < ((current.tools_used.getD [] ++ baseline.tools_used.getD []).dedup).length := by
      rw [List.length_pos, Ne, List.dedup_eq_nil, List.append_eq_nil]
      rintro ⟨h1, -⟩
      exact hc h1
    have hm : 0 < min (current.tools_used.getD []).length (baseline.tools_used.getD []).length := by
      rw [lt_min_iff]
      exact ⟨List.length_pos.mpr hc, List.length_pos.mpr hb⟩
    simp only [hc, hb, List.isEmpty_iff, Bool.and_eq_true, Bool.or_eq_true,
      if_neg, and_false, false_and, or_self, ite_false]
    rw [if_pos hu, if_pos hm, dedup_filter_contains_length, dedup_append_length]
    rfl

/-- Episode with tools `["a", "b"]`, from the spec's concrete scenario 3. -/
def epToolsAB : Episode := { tools_used := some ["a", "b"] }

/-- Episode with tools `["b", "a"]`, from the spec's concrete scenario 3. -/
def epToolsBA : Episode := { tools_used := some ["b", "a"] }

/-- C8: tool_match is 1.0 when both tool lists are empty, 0.0 when exactly
one is empty, and otherwise the 4-decimal rounding of jaccard*0.6 +
position_ratio*0.4, with jaccard the Jaccard overlap of the tool-name sets
and position_ratio the position-wise equality ratio over the first
min-length positions; in particular tools ["a","b"] against baseline
["b","a"] score 0.6. -/
theorem tool_match_eq_spec_and_example :
    (∀ current baseline, score_tool_match current baseline =
      toolMatchSpec current baseline) ∧
    score_tool_match epToolsAB epToolsBA = 3/5 := by
  refine ⟨score_tool_match_eq_spec, ?_⟩
  have h1 : ((["a","b"] : List String).dedup.filter
      (fun t => (["b","a"] : List String).contains t)).length = 2 := by decide
  have h2 : (((["a","b"] : List String) ++ ["b","a"]).dedup).length = 2 := by decide
  have h3 : (((["a","b"] : List String).zip ["b","a"]).filter
      (fun p => p.1 = p.2)).length = 0 := by decide
  simp only [score_tool_match, epToolsAB, epToolsBA, Option.getD_some, h1, h2, h3]
  norm_num [roundTo, roundHalfEven]

/-- Stamping an alert with a run id, as `check_batch` does in place. -/
def stampRun (runId : String) (a : RegressionAlert) : RegressionAlert :=
  { a with eval_run_id := runId }

/-- A completed eval result whose card shows a 50% cost regression and is
otherwise healthy (the batch-check scenario of the repository's tests). -/
def resCost50 : EvalResult :=
  { episode_id := "ep-1", agent_id := "a", status := .completed,
    score_card := some
      { episode_id := "ep-1", agent_id := "a",
        correctness := 9/10, cost_delta := 50, latency_delta := 0,
        tool_match := 9/10, safety := 1, weighted_score := 8/10 } }

/-- C9 counterexample: on a result whose card has a 50% cost regression
and run id "run-123", the alert list `check_batch` attaches to the result
is not the list `check` alone would produce for it: the attached alert
carries `eval_run_id = "run-123"` while `check` emits it with the empty
run id. -/
theorem check_batch_attached_ne_check :
    (RegressionDetector.check_batch {} "run-123" [resCost50]).2.map EvalResult.alerts ≠
      [RegressionDetector.check {} resCost50] := by
  have hcheck : RegressionDetector.check {} resCost50 =
      [{ eval_run_id := "", episode_id := "ep-1", dimension := .cost_delta,
         severity := .critical, baseline_value := 0, current_value := 50,
         delta_pct := 50 }] := by
    simp only [RegressionDetector.check, resCost50]
    norm_num
  have hbatch : (RegressionDetector.check_batch {} "run-123" [resCost50]).2.map
      EvalResult.alerts =
      [[{ eval_run_id := "run-123", episode_id := "ep-1", dimension := .cost_delta,
          severity := .critical, baseline_value := 0, current_value := 50,
          delta_pct := 50 }]] := by
    simp only [RegressionDetector.check_batch, List.map_cons, List.map_nil]
    rw [hcheck]
    rfl
  rw [hbatch, hcheck]
  intro h
  simp at h

/-- C9 (amended): `check_batch` attaches to each result, in place, exactly
the alerts `check` would produce for that result alone with each alert's
`eval_run_id` replaced by the supplied run id, and returns their
flattened concatenation in result order with rule order preserved; every
returned alert's `eval_run_id` equals the supplied run id. -/
theorem check_batch_amended (config : EvalConfig) (runId : String)
    (results : List EvalResult) :
    (RegressionDetector.check_batch config runId results).2 =
      results.map (fun r =>
        { r with alerts := (RegressionDetector.check config r).map (stampRun runId) }) ∧
    (RegressionDetector.check_batch config runId results).1 =
      ((RegressionDetector.check_batch config runId results).2.map
        EvalResult.alerts).flatten ∧
    ((RegressionDetector.check_batch config runId results).1).all
      (fun a => a.eval_run_id == runId) = true := by
  induction results with
  | nil => exact ⟨rfl, rfl, rfl⟩
  | cons r rs ih =>
    obtain ⟨ih1, ih2, ih3⟩ := ih
    refine ⟨?_, ?_, ?_⟩
    · simp only [RegressionDetector.check_batch, List.map_cons]
      rw [ih1]
      rfl
    · simp only [RegressionDetector.check_batch, List.map_cons, List.flatten_cons]
      rw [ih2]
    · simp only [RegressionDetector.check_batch, List.all_append, Bool.and_eq_true]
      refine ⟨?_, ih3⟩
      rw [List.all_map]
      apply List.all_eq_true.mpr
      intro a _
      simp [Function.comp]

/-- C10: scoring an episode against an explicitly supplied empty baseline
record (a dict with no keys, which is falsy in Python) coincides with the
self-score path in every field of the resulting card: `compare` falls
back to the current episode and `baseline_episode_id` is `none`, exactly
as when no baseline is passed. -/
theorem score_empty_baseline_eq_self_score (config : EvalConfig) (e : Episode) :
    ScoringEngine.score config e (some Episode.empty) =
      ScoringEngine.score config e none :=
  rfl

end EvalHarness
